import Mathlib

/-!
Shallow embedding of `check_varnish_health.py` (class `CheckVarnishHealth`),
the counter-to-rate translation engine of a Varnish monitoring probe.

Modelling choices:
* The parsed output of the external `varnishstat` call is a `VarnishOutput`:
  either `malformed` raw text (JSON decoding fails) or a `valid` association
  list from field names to the numeric `"value"` entry of each field object.
* The persisted delta state (`nagiosplugin.Cookie` files) is a `Store`:
  a map from state-file path to the optional last persisted value.  Each
  state file is `join(self.tmpdir, self.metric)` and holds the single key
  `self.metric`, so one optional integer per path captures the cookie.
* Counter values are integers; derived metric values are rationals
  (`_get_percentage` divides and rounds).
* Exceptions become the `Err` type carried through `Except`.
-/

set_option autoImplicit false

namespace CheckVarnishHealth

/-- Result of running the external stats source and handing its stdout to
`json.loads`: either undecodable text or a decoded object mapping each field
name to its numeric `"value"`. -/
inductive VarnishOutput where
  | malformed (text : String)
  | valid (stats : List (String × ℤ))
  deriving Repr, DecidableEq

/-- The exception taxonomy of one probe invocation. -/
inductive Err where
  | malformedResponse (text : String) (fieldlist : List String)
  | keyError (field : String)
  | sourceTimeout
  deriving Repr, DecidableEq

/-- Persisted delta state: last value per state-file path (`nag.Cookie`). -/
def Store : Type := String → Option ℤ

/-- A store with no persisted records (fresh installation). -/
def emptyStore : Store := fun _ => none

/-- `os.path.join` for the relative components used by the probe. -/
def pathJoin (a b : String) : String := a ++ "/" ++ b

/-- `self.varnish_instance_name if self.varnish_instance_name else "default"`
from `__init__` (Python truthiness: `None` and `""` both fall back). -/
def instOrDefault (i : Option String) : String :=
  match i with
  | some s => if s = "" then "default" else s
  | none => "default"

/-- The state-file path used by `_get_growth_rate`:
`join(join(tmpdir, instance-or-default), metric)`. -/
def statefile (tmpdir : String) (inst : Option String) (metric : String) : String :=
  pathJoin (pathJoin tmpdir (instOrDefault inst)) metric

/-- `_load_varnishstats_json`: on undecodable output log/raise carrying the
offending text and the requested field list; otherwise keep exactly the
requested fields (`{f: v["value"] for (f, v) in d.items() if f in fieldlist}`). -/
def _load_varnishstats_json (out : VarnishOutput) (fieldlist : List String) :
    Except Err (List (String × ℤ)) :=
  match out with
  | .malformed text => .error (.malformedResponse text fieldlist)
  | .valid stats => .ok (stats.filter (fun p => fieldlist.contains p.1))

/-- `_fetch_varnishstats` as seen by the metric methods: run the external
source (its decoded stdout is the `out` argument) and load the fields. -/
def _fetch_varnishstats (out : VarnishOutput) (fieldlist : List String) :
    Except Err (List (String × ℤ)) :=
  _load_varnishstats_json out fieldlist

/-- `sum(d.values())` over a fetched field dict. -/
def sumValues (l : List (String × ℤ)) : ℤ := (l.map Prod.snd).sum

/-- Python `dict[k]` on the fetched field dict, as an optional lookup. -/
def lookupField (l : List (String × ℤ)) (k : String) : Option ℤ :=
  (l.find? (fun p => p.1 == k)).map Prod.snd

/-- `_get_growth_rate`: open the cookie at `statefile`; if a historic value is
present report `current - historic`, else report `0`; either way persist
`current` and commit. Returns the reported delta and the updated store. -/
def _get_growth_rate (statefilePath : String) (current_value : ℤ) (s : Store) :
    ℤ × Store :=
  match s statefilePath with
  | some historic_value =>
      (current_value - historic_value,
       fun p => if p = statefilePath then some current_value else s p)
  | none =>
      (0, fun p => if p = statefilePath then some current_value else s p)

/-- An argument to `_get_percentage`: the code accepts a plain number or an
iterable of numbers (which it sums via the `try: sum(...)` blocks). -/
inductive PercArg where
  | scalar (q : ℚ)
  | listArg (l : List ℚ)
  deriving Repr, DecidableEq

/-- The `try: x = sum(x) except TypeError: pass` normalisation. -/
def PercArg.toScalar : PercArg → ℚ
  | .scalar q => q
  | .listArg l => l.sum

/-- Floor of a rational, computed from its normalised fraction. -/
def ratFloor (q : ℚ) : ℤ := q.num.fdiv q.den

/-- Python `round(x, 0)` semantics on an exact rational: round half to even. -/
def roundHalfEven (q : ℚ) : ℤ :=
  let f := ratFloor q
  let r := q - (f : ℚ)
  if r < 1/2 then f
  else if 1/2 < r then f + 1
  else if f % 2 = 0 then f else f + 1

/-- Python `round(x, 2)` on an exact rational. -/
def round2 (q : ℚ) : ℚ := ((roundHalfEven (q * 100) : ℤ) : ℚ) / 100

/-- `_get_percentage`: sum iterable arguments, then
`round(part / total * 100, 2)`, with `ZeroDivisionError` handled as `0`. -/
def _get_percentage (part total : PercArg) : ℚ :=
  let p := part.toScalar
  let t := total.toScalar
  if t = 0 then 0 else round2 (p / t * 100)

/-- The dict returned by each metric method, and consumed by `probe`. -/
structure MetricDict where
  value : ℚ
  name : String
  uom : Option String
  min : Option ℤ
  max : Option ℤ
  deriving Repr, DecidableEq

/-- Outcome of one metric-method call: the dict (or the raised exception)
together with the persisted store after the call. -/
def MetricOutcome : Type := Except Err MetricDict × Store

/-- `client_good_request_rate`: growth rate of `sum` over `MAIN.client_req`.
`tmp` is `self.tmpdir` (already joined with the instance name). -/
def client_good_request_rate (tmp : String) (out : VarnishOutput) (s : Store) :
    MetricOutcome :=
  match _fetch_varnishstats out ["MAIN.client_req"] with
  | .error e => (.error e, s)
  | .ok fetched =>
      let current_value := sumValues fetched
      let (v, s') := _get_growth_rate (pathJoin tmp "client_good_request_rate") current_value s
      (.ok { value := (v : ℚ), name := "client_good_request_rate",
             uom := some "c", min := some 0, max := none }, s')

/-- `client_bad_request_rate`: growth rate of the sum of the four 4xx
sub-counters. -/
def client_bad_request_rate (tmp : String) (out : VarnishOutput) (s : Store) :
    MetricOutcome :=
  match _fetch_varnishstats out
      ["MAIN.client_req_400", "MAIN.client_req_411",
       "MAIN.client_req_413", "MAIN.client_req_417"] with
  | .error e => (.error e, s)
  | .ok fetched =>
      let current_value := sumValues fetched
      let (v, s') := _get_growth_rate (pathJoin tmp "client_bad_request_rate") current_value s
      (.ok { value := (v : ℚ), name := "client_bad_request_rate",
             uom := some "c", min := some 0, max := none }, s')

/-- `cache_hitrate_pct`: percentage of `MAIN.cache_hit` against
`MAIN.cache_hit + MAIN.cache_miss`. The Python code indexes
`metrics_dict["MAIN.cache_hit"]` directly, so a missing field raises
`KeyError`. No store access. -/
def cache_hitrate_pct (tmp : String) (out : VarnishOutput) (s : Store) :
    MetricOutcome :=
  match _fetch_varnishstats out ["MAIN.cache_hit", "MAIN.cache_miss"] with
  | .error e => (.error e, s)
  | .ok fetched =>
      match lookupField fetched "MAIN.cache_hit", lookupField fetched "MAIN.cache_miss" with
      | some hit, some miss =>
          (.ok { value := _get_percentage (.scalar (hit : ℚ)) (.scalar ((hit : ℚ) + (miss : ℚ))),
                 name := "cache_hitrate_pct", uom := some "%",
                 min := some 0, max := some 100 }, s)
      | none, _ => (.error (.keyError "MAIN.cache_hit"), s)
      | some _, none => (.error (.keyError "MAIN.cache_miss"), s)

/-- `session_queue_rate`: reports the raw current value of
`MAIN.thread_queue_len` (the dict's `"value"` is `current_value`, not a
growth rate); the store is never consulted. -/
def session_queue_rate (tmp : String) (out : VarnishOutput) (s : Store) :
    MetricOutcome :=
  match _fetch_varnishstats out ["MAIN.thread_queue_len"] with
  | .error e => (.error e, s)
  | .ok fetched =>
      let current_value := sumValues fetched
      (.ok { value := (current_value : ℚ), name := "session_queue_rate",
             uom := some "c", min := some 0, max := none }, s)

/-- `backend_request_rate`: growth rate of `MAIN.backend_req`. -/
def backend_request_rate (tmp : String) (out : VarnishOutput) (s : Store) :
    MetricOutcome :=
  match _fetch_varnishstats out ["MAIN.backend_req"] with
  | .error e => (.error e, s)
  | .ok fetched =>
      let current_value := sumValues fetched
      let (v, s') := _get_growth_rate (pathJoin tmp "backend_request_rate") current_value s
      (.ok { value := (v : ℚ), name := "backend_request_rate",
             uom := some "c", min := some 0, max := none }, s')

/-- `backend_failed_request_rate`: despite its name, the Python method
requests the same single field `MAIN.backend_req` as
`backend_request_rate` and applies the same derivation. -/
def backend_failed_request_rate (tmp : String) (out : VarnishOutput) (s : Store) :
    MetricOutcome :=
  match _fetch_varnishstats out ["MAIN.backend_req"] with
  | .error e => (.error e, s)
  | .ok fetched =>
      let current_value := sumValues fetched
      let (v, s') := _get_growth_rate (pathJoin tmp "backend_failed_request_rate") current_value s
      (.ok { value := (v : ℚ), name := "backend_failed_request_rate",
             uom := some "c", min := some 0, max := none }, s')

/-- Python truthiness of the optional numeric `min`/`max` attributes:
`None` and `0` are falsy. -/
def pyTruthy : Option ℤ → Bool
  | none => false
  | some v => v != 0

/-- The bound-override step of `probe`: `if self.min: metric_dict["min"] =
self.min` and likewise for `max`, applied to the dict the metric method
returned. -/
def probe (metric_dict : MetricDict) (minArg maxArg : Option ℤ) : MetricDict :=
  let d1 := if pyTruthy minArg then { metric_dict with min := minArg } else metric_dict
  if pyTruthy maxArg then { d1 with max := maxArg } else d1

/-- The external varnishstat process as the fetch sees it: how long it runs
before exiting, and the decoded output it leaves on stdout. -/
structure ExtProcess where
  duration : ℕ
  output : VarnishOutput

/-- `_fetch_varnishstats` with its timing behaviour made explicit.
`Popen` starts the process at time `0`; `process.communicate()` takes no
timeout argument and returns only once the process has exited, at time
`p.duration`; `process.wait(timeout=3)` is then called on the
already-exited process, so it observes an exit within its window and
returns immediately instead of raising. The first component is the time at
which the call returns. -/
def _fetch_varnishstats_timed (p : ExtProcess) (fieldlist : List String) :
    ℕ × Except Err (List (String × ℤ)) :=
  let exitTime := 0 + p.duration
  let waitResult : Except Unit ℕ :=
    if exitTime ≤ exitTime + 3 then .ok 0 else .error ()
  match waitResult with
  | .error _ => (exitTime, .error .sourceTimeout)
  | .ok _ => (exitTime, _load_varnishstats_json p.output fieldlist)

/-- The reported numeric value of a metric-method outcome, if it succeeded. -/
def valueOf : Except Err MetricDict → Option ℚ
  | .ok d => some d.value
  | .error _ => none

end CheckVarnishHealth

namespace CheckVarnishHealth

/-- C1: with no persisted record for the key, `_get_growth_rate` reports `0`
whatever the current cumulative value is, and persists the current value as
the new baseline. -/
theorem growth_rate_first_observation (path : String) (current : ℤ) (s : Store)
    (h : s path = none) :
    (_get_growth_rate path current s).1 = 0 ∧
    (_get_growth_rate path current s).2 path = some current := by
  simp [_get_growth_rate, h]

/-- Witness for C1: a fresh store, current counter `42`. -/
theorem growth_rate_first_observation_witness :
    emptyStore "/tmp/check_varnish_health/default/backend_request_rate" = none ∧
    ((_get_growth_rate "/tmp/check_varnish_health/default/backend_request_rate" 42 emptyStore).1 = 0 ∧
     (_get_growth_rate "/tmp/check_varnish_health/default/backend_request_rate" 42 emptyStore).2
       "/tmp/check_varnish_health/default/backend_request_rate" = some 42) :=
  ⟨rfl, growth_rate_first_observation _ 42 emptyStore rfl⟩

/-- C2: with a persisted baseline, `_get_growth_rate` reports exactly
`current - last` (negative values included, no clamping) and persists the
current value, replacing the old baseline. -/
theorem growth_rate_subsequent_observation (path : String) (current last : ℤ) (s : Store)
    (h : s path = some last) :
    (_get_growth_rate path current s).1 = current - last ∧
    (_get_growth_rate path current s).2 path = some current := by
  simp [_get_growth_rate, h]

/-- Witness for C2: baseline `10`, current `7`, reported delta `7 - 10 = -3`. -/
theorem growth_rate_subsequent_observation_witness :
    (fun p => if p = "t/default/m" then some (10 : ℤ) else none : Store) "t/default/m" = some 10 ∧
    ((_get_growth_rate "t/default/m" 7 (fun p => if p = "t/default/m" then some 10 else none)).1 = 7 - 10 ∧
     (_get_growth_rate "t/default/m" 7 (fun p => if p = "t/default/m" then some 10 else none)).2
       "t/default/m" = some 7) :=
  ⟨rfl, growth_rate_subsequent_observation _ 7 10 _ rfl⟩

/-- C3: `_get_percentage` computes `round(part / total * 100, 2)` with the
division-by-zero case defined as `0`; in particular `percentage(0, 0) = 0`
and `percentage(50, 200) = 25.0`. -/
theorem get_percentage_spec (part total : PercArg) :
    _get_percentage part total =
      (if total.toScalar = 0 then 0
       else round2 (part.toScalar / total.toScalar * 100)) ∧
    _get_percentage (.scalar 0) (.scalar 0) = 0 ∧
    _get_percentage (.scalar 50) (.scalar 200) = 25 := by
  refine ⟨rfl, by norm_num [_get_percentage, PercArg.toScalar], ?_⟩
  norm_num [_get_percentage, PercArg.toScalar, round2, roundHalfEven, ratFloor]

/-- C9 counterexample: the dict of `cache_hitrate_pct` has default bounds
`min = 0`, `max = 100`; a caller-supplied `max` of `0` is falsy for
`if self.max:`, so `probe` keeps `max = 100` instead of replacing it. -/
theorem probe_zero_max_not_overridden :
    (probe { value := 50, name := "cache_hitrate_pct", uom := some "%",
             min := some 0, max := some 100 } none (some 0)).max = some 100 ∧
    (some (100 : ℤ)) ≠ some 0 := by
  exact ⟨rfl, by decide⟩

/-- C9 amended: `probe` never changes the derived value (or the name), and a
caller-supplied bound replaces the default exactly when it is truthy
(non-`None` and non-zero); a falsy supplied bound leaves the default. -/
theorem probe_override_spec (md : MetricDict) (minArg maxArg : Option ℤ) :
    (probe md minArg maxArg).value = md.value ∧
    (probe md minArg maxArg).name = md.name ∧
    (probe md minArg maxArg).min = (if pyTruthy minArg then minArg else md.min) ∧
    (probe md minArg maxArg).max = (if pyTruthy maxArg then maxArg else md.max) := by
  unfold probe
  by_cases hmin : pyTruthy minArg = true <;>
    by_cases hmax : pyTruthy maxArg = true <;>
      simp [hmin, hmax]

/-- C6: on undecodable external output, every metric evaluation fails with
`MalformedResponse` carrying the offending text and the requested field
list, and the persisted store is returned exactly as it was — no baseline
is written or modified. -/
theorem malformed_json_fails_without_state_write (tmp text : String) (s : Store) :
    client_good_request_rate tmp (.malformed text) s =
      (.error (.malformedResponse text ["MAIN.client_req"]), s) ∧
    client_bad_request_rate tmp (.malformed text) s =
      (.error (.malformedResponse text
        ["MAIN.client_req_400", "MAIN.client_req_411",
         "MAIN.client_req_413", "MAIN.client_req_417"]), s) ∧
    cache_hitrate_pct tmp (.malformed text) s =
      (.error (.malformedResponse text ["MAIN.cache_hit", "MAIN.cache_miss"]), s) ∧
    session_queue_rate tmp (.malformed text) s =
      (.error (.malformedResponse text ["MAIN.thread_queue_len"]), s) ∧
    backend_request_rate tmp (.malformed text) s =
      (.error (.malformedResponse text ["MAIN.backend_req"]), s) ∧
    backend_failed_request_rate tmp (.malformed text) s =
      (.error (.malformedResponse text ["MAIN.backend_req"]), s) :=
  ⟨rfl, rfl, rfl, rfl, rfl, rfl⟩

/-- C4 counterexample: a valid response that lacks the requested field
`MAIN.cache_hit` makes the percentage-kind `cache_hitrate_pct` fail with a
`KeyError` instead of treating the field as `0`. -/
theorem cache_hitrate_missing_field_raises :
    cache_hitrate_pct "/tmp/check_varnish_health/default"
        (.valid [("MAIN.cache_miss", 3)]) emptyStore =
      (.error (.keyError "MAIN.cache_hit"), emptyStore) := rfl

/-- C4 amended: for the summing (rate-kind) path, a requested field that is
absent from the valid external response changes nothing: loading with the
extra absent field gives the same field dict, hence the absent field
contributes `0` to every sum and never raises. The summing evaluations
indeed never raise on a valid response, whatever fields it has. The
percentage-kind `cache_hitrate_pct` is excluded: it indexes the dict
directly. -/
theorem load_absent_field_contributes_zero (stats : List (String × ℤ))
    (fieldlist : List String) (f : String) (tmp : String) (s : Store)
    (h : ∀ p ∈ stats, p.1 ≠ f) :
    _load_varnishstats_json (.valid stats) (f :: fieldlist) =
      _load_varnishstats_json (.valid stats) fieldlist ∧
    (∃ d s', client_bad_request_rate tmp (.valid stats) s = (.ok d, s')) := by
  constructor
  · simp only [_load_varnishstats_json, Except.ok.injEq]
    refine List.filter_congr ?_
    intro p hp
    have hne : p.1 ≠ f := h p hp
    simp [List.contains_cons, hne]
  · unfold client_bad_request_rate _fetch_varnishstats _load_varnishstats_json
      _get_growth_rate
    cases s (pathJoin tmp "client_bad_request_rate") <;> exact ⟨_, _, rfl⟩

/-- Witness for C4's amended theorem: requesting the absent
`MAIN.client_req_411` alongside a present field changes nothing, and the
summed evaluation succeeds. -/
theorem load_absent_field_contributes_zero_witness :
    (∀ p ∈ [(("MAIN.client_req_400" : String), (3 : ℤ))], p.1 ≠ "MAIN.client_req_411") ∧
    (_load_varnishstats_json (.valid [("MAIN.client_req_400", 3)])
        ["MAIN.client_req_411", "MAIN.client_req_400"] =
      _load_varnishstats_json (.valid [("MAIN.client_req_400", 3)])
        ["MAIN.client_req_400"] ∧
     (∃ d s', client_bad_request_rate "t" (.valid [("MAIN.client_req_400", 3)])
        emptyStore = (.ok d, s'))) :=
  ⟨by decide,
   load_absent_field_contributes_zero _ ["MAIN.client_req_400"]
     "MAIN.client_req_411" "t" emptyStore (by decide)⟩

/-- C5: the timeout in `_fetch_varnishstats` is dead code. `communicate()`
blocks with no bound until the external process exits, so the fetch returns
only at `p.duration` (which may exceed `3` arbitrarily), and the
`wait(timeout=3)` that follows always observes an already-exited process,
so a `SourceTimeout` failure is never produced — shown concretely for a
process that hangs for `1000000` time units. -/
theorem fetch_timeout_never_fires (p : ExtProcess) (fieldlist : List String) :
    (_fetch_varnishstats_timed p fieldlist).1 = p.duration ∧
    (_fetch_varnishstats_timed p fieldlist).2 ≠ .error .sourceTimeout ∧
    (_fetch_varnishstats_timed ⟨1000000, .valid []⟩ ["MAIN.client_req"]).1 = 1000000 := by
  refine ⟨by simp [_fetch_varnishstats_timed], ?_, rfl⟩
  cases hout : p.output <;>
    simp [_fetch_varnishstats_timed, _load_varnishstats_json, hout]

/-- C7 counterexample: with a persisted baseline of `5` for the session-queue
key and a current gauge value of `7`, `session_queue_rate` reports the raw
value `7` and leaves the store untouched, while the growth-rate path would
have reported the delta `2`; and `7 ≠ 2`. -/
theorem session_queue_rate_counterexample :
    (session_queue_rate "/tmp/check_varnish_health/default"
        (.valid [("MAIN.thread_queue_len", 7)])
        (fun p => if p = "/tmp/check_varnish_health/default/session_queue_rate"
                  then some 5 else none)).1 =
      .ok { value := 7, name := "session_queue_rate", uom := some "c",
            min := some 0, max := none } ∧
    (session_queue_rate "/tmp/check_varnish_health/default"
        (.valid [("MAIN.thread_queue_len", 7)])
        (fun p => if p = "/tmp/check_varnish_health/default/session_queue_rate"
                  then some 5 else none)).2 =
      (fun p => if p = "/tmp/check_varnish_health/default/session_queue_rate"
                then some 5 else none) ∧
    (_get_growth_rate "/tmp/check_varnish_health/default/session_queue_rate" 7
        (fun p => if p = "/tmp/check_varnish_health/default/session_queue_rate"
                  then some 5 else none)).1 = 2 ∧
    (7 : ℚ) ≠ 2 := by
  refine ⟨rfl, rfl, rfl, by norm_num⟩

/-- C7 amended: `session_queue_rate` reports the raw current value of
`MAIN.thread_queue_len` and never consults or updates the Delta State
Store — it bypasses the growth-rate path. -/
theorem session_queue_rate_reports_raw_value (tmp : String)
    (stats : List (String × ℤ)) (s : Store) :
    session_queue_rate tmp (.valid stats) s =
      (.ok { value :=
               (sumValues (stats.filter
                 (fun p => (["MAIN.thread_queue_len"] : List String).contains p.1)) : ℚ),
             name := "session_queue_rate", uom := some "c",
             min := some 0, max := none }, s) := rfl

/-- C10: `backend_request_rate` and `backend_failed_request_rate` request the
same single field `MAIN.backend_req` and apply the same derivation, so on
any external response, whenever their persisted baselines agree the two
metrics report the same value (and fail identically). -/
theorem backend_failed_equals_backend (tmp : String) (out : VarnishOutput) (s : Store)
    (h : s (pathJoin tmp "backend_request_rate") =
         s (pathJoin tmp "backend_failed_request_rate")) :
    valueOf (backend_request_rate tmp out s).1 =
      valueOf (backend_failed_request_rate tmp out s).1 := by
  cases out with
  | malformed t =>
      simp [backend_request_rate, backend_failed_request_rate,
            _fetch_varnishstats, _load_varnishstats_json, valueOf]
  | valid stats =>
      unfold backend_request_rate backend_failed_request_rate
        _fetch_varnishstats _load_varnishstats_json _get_growth_rate
      rw [h]
      cases hs : s (pathJoin tmp "backend_failed_request_rate") <;>
        simp [hs, valueOf]

/-- Witness for C10: baselines both `4`, current counter `9`: both metrics
report the same value. -/
theorem backend_failed_equals_backend_witness :
    ((fun _ => some (4 : ℤ) : Store) (pathJoin "t" "backend_request_rate") =
     (fun _ => some (4 : ℤ) : Store) (pathJoin "t" "backend_failed_request_rate")) ∧
    valueOf (backend_request_rate "t" (.valid [("MAIN.backend_req", 9)]) (fun _ => some 4)).1 =
      valueOf (backend_failed_request_rate "t" (.valid [("MAIN.backend_req", 9)]) (fun _ => some 4)).1 :=
  ⟨rfl, backend_failed_equals_backend "t" _ _ rfl⟩

/-- Splitting a list at a separator that occurs in neither prefix is
unambiguous. -/
theorem sep_split_inj {α : Type} (c : α) :
    ∀ (xs xs' ys ys' : List α), c ∉ xs → c ∉ xs' →
      xs ++ c :: ys = xs' ++ c :: ys' → xs = xs' ∧ ys = ys' := by
  intro xs
  induction xs with
  | nil =>
      intro xs' ys ys' _ h2 heq
      cases xs' with
      | nil => exact ⟨rfl, by simpa using heq⟩
      | cons b bs =>
          simp only [List.nil_append, List.cons_append, List.cons.injEq] at heq
          obtain ⟨rfl, -⟩ := heq
          exact absurd (List.mem_cons_self _ _) h2
  | cons a as ih =>
      intro xs' ys ys' h1 h2 heq
      cases xs' with
      | nil =>
          simp only [List.nil_append, List.cons_append, List.cons.injEq] at heq
          obtain ⟨rfl, -⟩ := heq
          exact absurd (List.mem_cons_self _ _) h1
      | cons b bs =>
          simp only [List.cons_append, List.cons.injEq] at heq
          obtain ⟨rfl, htl⟩ := heq
          have h1' : c ∉ as := fun hc => h1 (List.mem_cons_of_mem _ hc)
          have h2' : c ∉ bs := fun hc => h2 (List.mem_cons_of_mem _ hc)
          obtain ⟨he, ht⟩ := ih bs ys ys' h1' h2' htl
          exact ⟨by rw [he], ht⟩

/-- The character list of an `os.path.join` of two components. -/
theorem data_pathJoin (a b : String) :
    (pathJoin a b).data = a.data ++ '/' :: b.data := by
  simp [pathJoin, String.data_append]

/-- The state-file path determines the (instance-or-default, metric) key, as
long as metric names contain no path separator (all registry metric names
are plain identifiers). -/
theorem statefile_inj (tmp : String) (i1 i2 : Option String) (m1 m2 : String)
    (h1 : '/' ∉ m1.data) (h2 : '/' ∉ m2.data)
    (heq : statefile tmp i1 m1 = statefile tmp i2 m2) :
    instOrDefault i1 = instOrDefault i2 ∧ m1 = m2 := by
  have hd : (statefile tmp i1 m1).data = (statefile tmp i2 m2).data := by rw [heq]
  simp only [statefile, data_pathJoin] at hd
  have hrev := congrArg List.reverse hd
  simp only [List.reverse_append, List.reverse_cons, List.append_assoc,
    List.cons_append, List.nil_append] at hrev
  obtain ⟨hm, hi⟩ := sep_split_inj '/' _ _ _ _
    (by simpa using h1) (by simpa using h2) hrev
  have hm' : m1 = m2 := String.ext (List.reverse_injective hm)
  have hx : (instOrDefault i1).data.reverse = (instOrDefault i2).data.reverse :=
    List.append_cancel_right hi
  exact ⟨String.ext (List.reverse_injective hx), hm'⟩

/-- C8: distinct (instance-or-default, metric) keys always use distinct
state files (the path is injective in the key, given separator-free metric
names), and a growth-rate invocation for one key leaves every other key's
persisted baseline untouched. -/
theorem distinct_keys_distinct_statefiles (tmp : String) (i1 i2 : Option String)
    (m1 m2 : String) (c : ℤ) (s : Store)
    (h1 : '/' ∉ m1.data) (h2 : '/' ∉ m2.data)
    (hne : (instOrDefault i1, m1) ≠ (instOrDefault i2, m2)) :
    statefile tmp i1 m1 ≠ statefile tmp i2 m2 ∧
    (_get_growth_rate (statefile tmp i2 m2) c s).2 (statefile tmp i1 m1) =
      s (statefile tmp i1 m1) := by
  have hne' : statefile tmp i1 m1 ≠ statefile tmp i2 m2 := by
    intro heq
    obtain ⟨hi, hm⟩ := statefile_inj tmp i1 i2 m1 m2 h1 h2 heq
    exact hne (by rw [hi, hm])
  refine ⟨hne', ?_⟩
  unfold _get_growth_rate
  cases s (statefile tmp i2 m2) <;> simp [hne']

/-- Witness for C8: the default instance with the two backend/client metric
names; evaluating one leaves the other's (absent) baseline absent. -/
theorem distinct_keys_distinct_statefiles_witness :
    ('/' ∉ ("backend_request_rate" : String).data) ∧
    ('/' ∉ ("client_good_request_rate" : String).data) ∧
    ((instOrDefault none, ("backend_request_rate" : String)) ≠
      (instOrDefault none, ("client_good_request_rate" : String))) ∧
    (statefile "/tmp/check_varnish_health" none "backend_request_rate" ≠
       statefile "/tmp/check_varnish_health" none "client_good_request_rate" ∧
     (_get_growth_rate
         (statefile "/tmp/check_varnish_health" none "client_good_request_rate") 5
         emptyStore).2
         (statefile "/tmp/check_varnish_health" none "backend_request_rate") =
       emptyStore (statefile "/tmp/check_varnish_health" none "backend_request_rate")) :=
  ⟨by decide, by decide, by decide,
   distinct_keys_distinct_statefiles "/tmp/check_varnish_health" none none
     "backend_request_rate" "client_good_request_rate" 5 emptyStore
     (by decide) (by decide) (by decide)⟩

end CheckVarnishHealth
